import Mathlib

/-!
Verification of `tools/process_map.py` (World of Pirates map processor).

The script turns a raster map into a ternary terrain grid:
`clean_map` thresholds brightness into a boolean land mask,
`generate_shallow_water` promotes water cells within a Euclidean radius of
land to shallow water, and `terrain_to_image` paints the grid with three
fixed RGB colors.  The embedding below follows the Python source
cell-by-cell; pixel values and thresholds are `Int`, grids are lists of
rows, and a mask is a function `Nat → Nat → Bool` together with its
height and width.
-/

/-- The offset list `[-r, ..., r]`, mirroring Python's
`range(-buffer_tiles, buffer_tiles + 1)`; empty when `r < 0`. -/
def offsets (r : Int) : List Int :=
  (List.range (2 * r + 1).toNat).map fun (i : Nat) => (i : Int) - r

/-- The bounds check `0 <= ny < height and 0 <= nx < width`. -/
def inBounds (height width : Nat) (ny nx : Int) : Bool :=
  decide (0 ≤ ny) && decide (ny < (height : Int)) &&
  decide (0 ≤ nx) && decide (nx < (width : Int))

/-- The neighbourhood scan of `generate_shallow_water` for one water cell:
some in-bounds offset `(dy, dx)` of the square window hits a land cell at
Euclidean distance at most `buffer_tiles`.  The float test
`sqrt(dx*dx + dy*dy) <= buffer_tiles` is embedded as the exact integer
test `dx*dx + dy*dy <= buffer_tiles * buffer_tiles`, equivalent to it for
`buffer_tiles >= 0` (the window is empty for negative `buffer_tiles`). -/
def isShallowCell (land_mask : Nat → Nat → Bool) (height width : Nat)
    (buffer_tiles : Int) (y x : Nat) : Bool :=
  (offsets buffer_tiles).any fun dy =>
    (offsets buffer_tiles).any fun dx =>
      inBounds height width ((y : Int) + dy) ((x : Int) + dx) &&
      land_mask ((y : Int) + dy).toNat ((x : Int) + dx).toNat &&
      decide (dx * dx + dy * dy ≤ buffer_tiles * buffer_tiles)

/-- One cell of the terrain grid: `2` (LAND) where the mask is true —
`terrain[land_mask] = 2` — otherwise `1` (SHALLOW) when the scan finds
land within the radius, else `0` (WATER). -/
def terrainCell (land_mask : Nat → Nat → Bool) (height width : Nat)
    (buffer_tiles : Int) (y x : Nat) : Nat :=
  if land_mask y x then 2
  else if isShallowCell land_mask height width buffer_tiles y x then 1
  else 0

/-- `generate_shallow_water(land_mask, buffer_tiles)`: the full
`height × width` terrain grid, row-major. -/
def generate_shallow_water (land_mask : Nat → Nat → Bool) (height width : Nat)
    (buffer_tiles : Int) : List (List Nat) :=
  (List.range height).map fun y =>
    (List.range width).map fun x =>
      terrainCell land_mask height width buffer_tiles y x

/-- Cell `(y, x)` of a row-major grid, `none` when out of range. -/
def cellOpt {α : Type} (g : List (List α)) (y x : Nat) : Option α :=
  (g[y]?).bind fun row => row[x]?

/-- How many cells of the grid hold the value `v`. -/
def gridCount (g : List (List Nat)) (v : Nat) : Nat :=
  (g.map fun row => row.count v).sum

/-- Spec-side predicate: some land cell of the mask lies within Euclidean
distance `r` of `(y, x)`, i.e. the squared distance is at most `r * r`. -/
def landWithin (land_mask : Nat → Nat → Bool) (height width : Nat)
    (r : Int) (y x : Nat) : Prop :=
  ∃ ly lx : Nat, ly < height ∧ lx < width ∧ land_mask ly lx = true ∧
    ((ly : Int) - y) * ((ly : Int) - y) + ((lx : Int) - x) * ((lx : Int) - x) ≤ r * r

/-- A numpy image array as `clean_map` sees it: 2-dimensional
(single-channel) or 3-dimensional (one channel list per pixel). -/
inductive NpImage where
  | gray (pixels : List (List Int))
  | color (pixels : List (List (List Int)))

/-- `clean_map(image_array, land_threshold)`: for a 3-d array take the
per-pixel channel mean, then mark land where brightness strictly exceeds
the threshold.  The float test `mean(chans) > t` is embedded as the exact
integer test `t * len(chans) < sum(chans)` (equivalent for nonempty
channel lists; for an empty channel list numpy's `nan > t` is false, as
is `t * 0 < 0`). -/
def clean_map (image_array : NpImage) (land_threshold : Int) : List (List Bool) :=
  match image_array with
  | .gray px => px.map fun row => row.map fun v => decide (land_threshold < v)
  | .color px => px.map fun row => row.map fun chans =>
      decide (land_threshold * chans.length < chans.sum)

/-- Spec-side brightness of a multi-channel pixel: the unweighted mean of
its channel values, as a rational. -/
def brightnessQ (chans : List Int) : ℚ :=
  (chans.sum : ℚ) / (chans.length : ℚ)

/-- The color of one terrain value in `terrain_to_image`: the pixel starts
zero-initialized and is recolored when the value is 0, 1 or 2. -/
def terrainColor (v : Nat) : Nat × Nat × Nat :=
  let p : Nat × Nat × Nat := (0, 0, 0)
  let p := if v = 0 then (0, 0, 0) else p
  let p := if v = 1 then (0, 255, 255) else p
  let p := if v = 2 then (255, 255, 255) else p
  p

/-- `terrain_to_image(terrain)`: the RGB image of the terrain grid. -/
def terrain_to_image (terrain : List (List Nat)) : List (List (Nat × Nat × Nat)) :=
  terrain.map fun row => row.map terrainColor

/-- The 5×5 mask of the boundary scenario: a single land cell at (2, 2). -/
def mask5 : Nat → Nat → Bool := fun y x => decide (y = 2) && decide (x = 2)

section Lemmas

lemma mem_offsets (r d : Int) : d ∈ offsets r ↔ -r ≤ d ∧ d ≤ r := by
  unfold offsets
  rw [List.mem_map]
  constructor
  · rintro ⟨i, hi, rfl⟩
    rw [List.mem_range] at hi
    omega
  · rintro ⟨h1, h2⟩
    exact ⟨(d + r).toNat, List.mem_range.mpr (by omega), by omega⟩

lemma neg_le_and_le_of_mul_self_le (a r : Int) (hr : 0 ≤ r) (h : a * a ≤ r * r) :
    -r ≤ a ∧ a ≤ r := by
  constructor <;> nlinarith [mul_self_nonneg (a + r), mul_self_nonneg (a - r)]

lemma isShallowCell_iff (land_mask : Nat → Nat → Bool) (height width : Nat)
    (r : Int) (hr : 0 ≤ r) (y x : Nat) :
    isShallowCell land_mask height width r y x = true ↔
      landWithin land_mask height width r y x := by
  unfold isShallowCell landWithin inBounds
  simp only [List.any_eq_true, mem_offsets, Bool.and_eq_true, decide_eq_true_eq]
  constructor
  · rintro ⟨dy, ⟨hdy1, hdy2⟩, dx, ⟨hdx1, hdx2⟩, ⟨⟨⟨⟨h1, h2⟩, h3⟩, h4⟩, hmask⟩, hdist⟩
    refine ⟨((y : Int) + dy).toNat, ((x : Int) + dx).toNat, by omega, by omega, hmask, ?_⟩
    have e1 : ((((y : Int) + dy).toNat : Int)) = (y : Int) + dy := Int.toNat_of_nonneg h1
    have e2 : ((((x : Int) + dx).toNat : Int)) = (x : Int) + dx := Int.toNat_of_nonneg h3
    rw [e1, e2, add_sub_cancel_left, add_sub_cancel_left]
    linarith
  · rintro ⟨ly, lx, hly, hlx, hmask, hdist⟩
    have hdy2 : ((ly : Int) - y) * ((ly : Int) - y) ≤ r * r := by
      nlinarith [mul_self_nonneg ((lx : Int) - x)]
    have hdx2 : ((lx : Int) - x) * ((lx : Int) - x) ≤ r * r := by
      nlinarith [mul_self_nonneg ((ly : Int) - y)]
    have hdy := neg_le_and_le_of_mul_self_le _ _ hr hdy2
    have hdx := neg_le_and_le_of_mul_self_le _ _ hr hdx2
    refine ⟨(ly : Int) - y, hdy, (lx : Int) - x, hdx,
      ⟨⟨⟨⟨by omega, by omega⟩, by omega⟩, by omega⟩, ?_⟩, by linarith⟩
    have e1 : (((y : Int) + ((ly : Int) - y)).toNat) = ly := by omega
    have e2 : (((x : Int) + ((lx : Int) - x)).toNat) = lx := by omega
    rw [e1, e2]
    exact hmask

lemma cellOpt_generate (land_mask : Nat → Nat → Bool) (height width : Nat)
    (r : Int) (y x : Nat) (hy : y < height) (hx : x < width) :
    cellOpt (generate_shallow_water land_mask height width r) y x =
      some (terrainCell land_mask height width r y x) := by
  unfold cellOpt generate_shallow_water
  simp [List.getElem?_map, List.getElem?_range, hy, hx]

lemma offsets_zero : offsets 0 = [0] := rfl

lemma offsets_neg (r : Int) (hr : r < 0) : offsets r = [] := by
  unfold offsets
  have h : (2 * r + 1).toNat = 0 := by omega
  rw [h]
  rfl

lemma isShallowCell_zero (land_mask : Nat → Nat → Bool) (height width : Nat)
    (y x : Nat) (hm : land_mask y x = false) :
    isShallowCell land_mask height width 0 y x = false := by
  unfold isShallowCell
  rw [offsets_zero]
  simp [hm]

lemma terrainCell_zero (land_mask : Nat → Nat → Bool) (height width : Nat)
    (y x : Nat) :
    terrainCell land_mask height width 0 y x =
      if land_mask y x then 2 else 0 := by
  unfold terrainCell
  by_cases hm : land_mask y x = true
  · simp [hm]
  · rw [Bool.not_eq_true] at hm
    simp [hm, isShallowCell_zero land_mask height width y x hm]

lemma terrainCell_neg (land_mask : Nat → Nat → Bool) (height width : Nat)
    (r : Int) (hr : r < 0) (y x : Nat) :
    terrainCell land_mask height width r y x =
      if land_mask y x then 2 else 0 := by
  unfold terrainCell isShallowCell
  rw [offsets_neg r hr]
  simp

lemma generate_pointwise (land_mask : Nat → Nat → Bool) (height width : Nat)
    (r1 r2 : Int)
    (hc : ∀ y x, terrainCell land_mask height width r1 y x =
                 terrainCell land_mask height width r2 y x) :
    generate_shallow_water land_mask height width r1 =
      generate_shallow_water land_mask height width r2 := by
  unfold generate_shallow_water
  apply congrArg (fun f => List.map f (List.range height))
  funext y
  apply congrArg (fun f => List.map f (List.range width))
  funext x
  exact hc y x

lemma landWithin_mono (land_mask : Nat → Nat → Bool) (height width : Nat)
    (r1 r2 : Int) (hr1 : 0 ≤ r1) (h12 : r1 ≤ r2) (y x : Nat)
    (h : landWithin land_mask height width r1 y x) :
    landWithin land_mask height width r2 y x := by
  obtain ⟨ly, lx, h1, h2, h3, h4⟩ := h
  exact ⟨ly, lx, h1, h2, h3, le_trans h4 (by nlinarith)⟩

lemma cellOpt_map {α β : Type} (f : α → β) (g : List (List α)) (y x : Nat) :
    cellOpt (g.map fun row => row.map f) y x = (cellOpt g y x).map f := by
  unfold cellOpt
  rw [List.getElem?_map]
  cases hrow : g[y]? with
  | none => rfl
  | some row =>
      simp [List.getElem?_map]

end Lemmas

/-- C1: for a nonnegative radius, a cell of the generated grid is SHALLOW
(1) exactly when it is not land and some land cell of the mask lies within
Euclidean distance `radius`, and WATER (0) exactly when it is not land and
no land cell lies within that distance; the inclusive boundary (distance
exactly `radius`) is covered by the `≤` in `landWithin`. -/
theorem generate_shallow_water_euclidean_classification
    (land_mask : Nat → Nat → Bool) (height width : Nat) (r : Int) (y x : Nat)
    (hy : y < height) (hx : x < width) (hr : 0 ≤ r) :
    (cellOpt (generate_shallow_water land_mask height width r) y x = some 1 ↔
      land_mask y x = false ∧ landWithin land_mask height width r y x)
  ∧ (cellOpt (generate_shallow_water land_mask height width r) y x = some 0 ↔
      land_mask y x = false ∧ ¬ landWithin land_mask height width r y x) := by
  rw [cellOpt_generate land_mask height width r y x hy hx]
  have hiff := isShallowCell_iff land_mask height width r hr y x
  unfold terrainCell
  by_cases hm : land_mask y x = true
  · simp [hm]
  · rw [Bool.not_eq_true] at hm
    by_cases hs : isShallowCell land_mask height width r y x = true
    · simp [hm, hs, hiff.mp hs]
    · rw [Bool.not_eq_true] at hs
      have hnw : ¬ landWithin land_mask height width r y x := fun hw => by
        simp [hiff.mpr hw] at hs
      simp [hm, hs, hnw]

theorem generate_shallow_water_euclidean_classification_witness :
    (cellOpt (generate_shallow_water mask5 5 5 2) 2 0 = some 1 ↔
      mask5 2 0 = false ∧ landWithin mask5 5 5 2 2 0)
  ∧ (cellOpt (generate_shallow_water mask5 5 5 2) 2 0 = some 0 ↔
      mask5 2 0 = false ∧ ¬ landWithin mask5 5 5 2 2 0) :=
  generate_shallow_water_euclidean_classification mask5 5 5 2 2 0
    (by decide) (by decide) (by decide)

/-- C2: a cell of the generated grid is LAND (2) exactly when the mask is
true there; a true-mask cell is never WATER or SHALLOW and a false-mask
cell is never LAND. -/
theorem generate_shallow_water_land_iff_mask
    (land_mask : Nat → Nat → Bool) (height width : Nat) (r : Int) (y x : Nat)
    (hy : y < height) (hx : x < width) :
    (cellOpt (generate_shallow_water land_mask height width r) y x = some 2 ↔
      land_mask y x = true)
  ∧ (land_mask y x = true →
      cellOpt (generate_shallow_water land_mask height width r) y x ≠ some 0 ∧
      cellOpt (generate_shallow_water land_mask height width r) y x ≠ some 1)
  ∧ (land_mask y x = false →
      cellOpt (generate_shallow_water land_mask height width r) y x ≠ some 2) := by
  rw [cellOpt_generate land_mask height width r y x hy hx]
  unfold terrainCell
  by_cases hm : land_mask y x = true
  · simp [hm]
  · rw [Bool.not_eq_true] at hm
    by_cases hs : isShallowCell land_mask height width r y x = true <;>
      simp [hm, hs]

theorem generate_shallow_water_land_iff_mask_witness :
    (cellOpt (generate_shallow_water mask5 5 5 2) 2 2 = some 2 ↔
      mask5 2 2 = true)
  ∧ (mask5 2 2 = true →
      cellOpt (generate_shallow_water mask5 5 5 2) 2 2 ≠ some 0 ∧
      cellOpt (generate_shallow_water mask5 5 5 2) 2 2 ≠ some 1)
  ∧ (mask5 2 2 = false →
      cellOpt (generate_shallow_water mask5 5 5 2) 2 2 ≠ some 2) :=
  generate_shallow_water_land_iff_mask mask5 5 5 2 2 2 (by decide) (by decide)

/-- C3: growing the radius from `r1` to `r2 ≥ r1 ≥ 0` keeps every SHALLOW
cell SHALLOW and every LAND cell LAND, and never turns a non-WATER cell
into WATER. -/
theorem generate_shallow_water_radius_mono
    (land_mask : Nat → Nat → Bool) (height width : Nat) (r1 r2 : Int)
    (y x : Nat) (hr1 : 0 ≤ r1) (h12 : r1 ≤ r2) :
    (terrainCell land_mask height width r1 y x = 1 →
      terrainCell land_mask height width r2 y x = 1)
  ∧ (terrainCell land_mask height width r1 y x = 2 →
      terrainCell land_mask height width r2 y x = 2)
  ∧ (terrainCell land_mask height width r1 y x ≠ 0 →
      terrainCell land_mask height width r2 y x ≠ 0) := by
  have hmono : isShallowCell land_mask height width r1 y x = true →
      isShallowCell land_mask height width r2 y x = true := by
    intro h
    rw [isShallowCell_iff land_mask height width r1 hr1 y x] at h
    rw [isShallowCell_iff land_mask height width r2 (le_trans hr1 h12) y x]
    exact landWithin_mono land_mask height width r1 r2 hr1 h12 y x h
  unfold terrainCell
  by_cases hm : land_mask y x = true
  · simp [hm]
  · rw [Bool.not_eq_true] at hm
    by_cases hs : isShallowCell land_mask height width r1 y x = true
    · simp [hm, hs, hmono hs]
    · rw [Bool.not_eq_true] at hs
      simp [hm, hs]

theorem generate_shallow_water_radius_mono_witness :
    (terrainCell mask5 5 5 1 2 1 = 1 → terrainCell mask5 5 5 2 2 1 = 1)
  ∧ (terrainCell mask5 5 5 1 2 1 = 2 → terrainCell mask5 5 5 2 2 1 = 2)
  ∧ (terrainCell mask5 5 5 1 2 1 ≠ 0 → terrainCell mask5 5 5 2 2 1 ≠ 0) :=
  generate_shallow_water_radius_mono mask5 5 5 1 2 2 1 (by decide) (by decide)

/-- C4: at radius 0 the terrain grid has no SHALLOW cell: every mask-true
cell is LAND (2) and every mask-false cell is WATER (0), because the scan
window collapses to the single offset (0, 0). -/
theorem generate_shallow_water_radius_zero (land_mask : Nat → Nat → Bool)
    (height width : Nat) :
    (∀ y x, terrainCell land_mask height width 0 y x =
      if land_mask y x then 2 else 0)
  ∧ generate_shallow_water land_mask height width 0 =
      ((List.range height).map fun y =>
        (List.range width).map fun x => if land_mask y x then 2 else 0) := by
  constructor
  · exact fun y x => terrainCell_zero land_mask height width y x
  · unfold generate_shallow_water
    apply congrArg (fun f => List.map f (List.range height))
    funext y
    apply congrArg (fun f => List.map f (List.range width))
    funext x
    exact terrainCell_zero land_mask height width y x

/-- C9: a negative radius raises no error and yields the same grid as
radius 0 — the offset range is empty, so no water cell is ever promoted
to SHALLOW. -/
theorem generate_shallow_water_negative_radius (land_mask : Nat → Nat → Bool)
    (height width : Nat) (r : Int) (hr : r < 0) :
    generate_shallow_water land_mask height width r =
      generate_shallow_water land_mask height width 0
  ∧ ∀ y x, terrainCell land_mask height width r y x ≠ 1 := by
  constructor
  · apply generate_pointwise
    intro y x
    rw [terrainCell_neg land_mask height width r hr y x,
        terrainCell_zero land_mask height width y x]
  · intro y x
    rw [terrainCell_neg land_mask height width r hr y x]
    by_cases hm : land_mask y x = true <;> simp [hm]

theorem generate_shallow_water_negative_radius_witness :
    generate_shallow_water mask5 5 5 (-1) = generate_shallow_water mask5 5 5 0
  ∧ ∀ y x, terrainCell mask5 5 5 (-1) y x ≠ 1 :=
  generate_shallow_water_negative_radius mask5 5 5 (-1) (by decide)

/-- C5 (counterexample): the boundary scenario of the spec fails on the
code: the 5×5 mask with land only at (2, 2) and radius 2 does not give
20 SHALLOW and 4 WATER cells — the eight cells at distance sqrt 5 from
the centre are WATER too. -/
theorem boundary_scenario_counts_counterexample :
    ¬ (gridCount (generate_shallow_water mask5 5 5 2) 1 = 20 ∧
       gridCount (generate_shallow_water mask5 5 5 2) 0 = 4) := by
  decide

/-- C5 (amended): the 5×5 mask with land only at (2, 2) and radius 2
yields exactly 1 LAND cell, 12 SHALLOW cells and 12 WATER cells; the
WATER cells are the four corners (distance sqrt 8) and the eight cells
at distance sqrt 5, both > 2. -/
theorem boundary_scenario_counts_amended :
    generate_shallow_water mask5 5 5 2 =
      [[0, 0, 1, 0, 0],
       [0, 1, 1, 1, 0],
       [1, 1, 2, 1, 1],
       [0, 1, 1, 1, 0],
       [0, 0, 1, 0, 0]]
  ∧ gridCount (generate_shallow_water mask5 5 5 2) 2 = 1
  ∧ gridCount (generate_shallow_water mask5 5 5 2) 1 = 12
  ∧ gridCount (generate_shallow_water mask5 5 5 2) 0 = 12 := by
  decide

/-- C6: `clean_map` marks a cell as land exactly when its brightness
strictly exceeds the threshold — the raw value for a single-channel
image, the unweighted channel mean for a multi-channel image — and the
spec's scenarios hold: value 200 against threshold 128 is land, value 50
is water, and a value equal to the threshold is water. -/
theorem clean_map_threshold_strict (img : List (List Int))
    (cimg : List (List (List Int))) (t v : Int) (chans : List Int)
    (y x : Nat) (hc : chans ≠ []) :
    (cellOpt (clean_map (.gray img) t) y x =
      (cellOpt img y x).map fun w => decide (t < w))
  ∧ (cellOpt (clean_map (.color cimg) t) y x =
      (cellOpt cimg y x).map fun px => decide (t * px.length < px.sum))
  ∧ (decide (t * chans.length < chans.sum) = true ↔
      (t : ℚ) < brightnessQ chans)
  ∧ clean_map (.gray [[200]]) 128 = [[true]]
  ∧ clean_map (.gray [[50]]) 128 = [[false]]
  ∧ clean_map (.gray [[v]]) v = [[false]] := by
  refine ⟨?_, ?_, ?_, by decide, by decide, ?_⟩
  · exact cellOpt_map (fun w => decide (t < w)) img y x
  · exact cellOpt_map (fun px => decide (t * px.length < px.sum)) cimg y x
  · have hn : 0 < (chans.length : ℚ) := by
      have := List.length_pos.mpr hc
      exact_mod_cast this
    rw [decide_eq_true_eq]
    unfold brightnessQ
    rw [lt_div_iff₀ hn]
    constructor
    · intro h
      exact_mod_cast h
    · intro h
      exact_mod_cast h
  · have hd : decide (v < v) = false := decide_eq_false (lt_irrefl v)
    simp [clean_map, hd]

theorem clean_map_threshold_strict_witness :
    (cellOpt (clean_map (.gray [[200]]) 128) 0 0 =
      (cellOpt [[(200 : Int)]] 0 0).map fun w => decide ((128 : Int) < w))
  ∧ (cellOpt (clean_map (.color [[[0, 255]]]) 128) 0 0 =
      (cellOpt [[[(0 : Int), 255]]] 0 0).map fun px =>
        decide ((128 : Int) * px.length < px.sum))
  ∧ (decide ((128 : Int) * [(10 : Int), 20].length < [(10 : Int), 20].sum) = true ↔
      ((128 : Int) : ℚ) < brightnessQ [10, 20])
  ∧ clean_map (.gray [[200]]) 128 = [[true]]
  ∧ clean_map (.gray [[50]]) 128 = [[false]]
  ∧ clean_map (.gray [[(7 : Int)]]) 7 = [[false]] :=
  clean_map_threshold_strict [[200]] [[[0, 255]]] 128 7 [10, 20] 0 0 (by decide)

/-- C7: `terrain_to_image` keeps the grid's dimensions, recolors each cell
through the fixed mapping WATER → (0,0,0), SHALLOW → (0,255,255),
LAND → (255,255,255), its per-cell mapping takes at most those three
colors, and the 2×2 scenario encodes as the spec says. -/
theorem terrain_to_image_color_mapping (terrain : List (List Nat)) (y x : Nat) :
    (terrain_to_image terrain).length = terrain.length
  ∧ ((terrain_to_image terrain)[y]?).map List.length =
      (terrain[y]?).map List.length
  ∧ cellOpt (terrain_to_image terrain) y x =
      (cellOpt terrain y x).map terrainColor
  ∧ (∀ w, terrainColor w = (0, 0, 0) ∨ terrainColor w = (0, 255, 255) ∨
      terrainColor w = (255, 255, 255))
  ∧ terrainColor 0 = (0, 0, 0)
  ∧ terrainColor 1 = (0, 255, 255)
  ∧ terrainColor 2 = (255, 255, 255)
  ∧ terrain_to_image [[0, 1], [2, 0]] =
      [[(0, 0, 0), (0, 255, 255)], [(255, 255, 255), (0, 0, 0)]] := by
  refine ⟨?_, ?_, ?_, ?_, by decide, by decide, by decide, by decide⟩
  · exact List.length_map _ _
  · unfold terrain_to_image
    rw [List.getElem?_map]
    cases terrain[y]? <;> simp
  · exact cellOpt_map terrainColor terrain y x
  · intro w
    rcases w with _ | _ | _ | n
    · exact Or.inl rfl
    · exact Or.inr (Or.inl rfl)
    · exact Or.inr (Or.inr rfl)
    · exact Or.inl rfl

/-- C8: thresholds outside [0, 255] never fail: on an image whose values
lie in [0, 255], a negative threshold classifies every cell as land and
a threshold at least 255 classifies every cell as water, for both
single-channel and (nonempty-pixel) multi-channel images. -/
theorem clean_map_extreme_thresholds (img : List (List Int))
    (himg : ∀ row ∈ img, ∀ v ∈ row, 0 ≤ v ∧ v ≤ 255)
    (cimg : List (List (List Int)))
    (hcimg : ∀ row ∈ cimg, ∀ px ∈ row, px ≠ [] ∧ ∀ c ∈ px, 0 ≤ c ∧ c ≤ 255)
    (t : Int) :
    (t < 0 → (∀ row ∈ clean_map (.gray img) t, ∀ b ∈ row, b = true)
           ∧ (∀ row ∈ clean_map (.color cimg) t, ∀ b ∈ row, b = true))
  ∧ (255 ≤ t → (∀ row ∈ clean_map (.gray img) t, ∀ b ∈ row, b = false)
             ∧ (∀ row ∈ clean_map (.color cimg) t, ∀ b ∈ row, b = false)) := by
  constructor
  · intro ht
    constructor
    · intro row' hrow' b hb
      simp only [clean_map, List.mem_map] at hrow'
      obtain ⟨row, hrow, rfl⟩ := hrow'
      simp only [List.mem_map] at hb
      obtain ⟨v, hv, rfl⟩ := hb
      have hr := himg row hrow v hv
      rw [decide_eq_true_eq]
      omega
    · intro row' hrow' b hb
      simp only [clean_map, List.mem_map] at hrow'
      obtain ⟨row, hrow, rfl⟩ := hrow'
      simp only [List.mem_map] at hb
      obtain ⟨px, hpx, rfl⟩ := hb
      obtain ⟨hne, hrange⟩ := hcimg row hrow px hpx
      rw [decide_eq_true_eq]
      have hlen : 1 ≤ (px.length : Int) := by
        have := List.length_pos.mpr hne
        omega
      have hsum : 0 ≤ px.sum := List.sum_nonneg fun c hcm => (hrange c hcm).1
      nlinarith
  · intro ht
    constructor
    · intro row' hrow' b hb
      simp only [clean_map, List.mem_map] at hrow'
      obtain ⟨row, hrow, rfl⟩ := hrow'
      simp only [List.mem_map] at hb
      obtain ⟨v, hv, rfl⟩ := hb
      have hr := himg row hrow v hv
      rw [decide_eq_false_iff_not]
      omega
    · intro row' hrow' b hb
      simp only [clean_map, List.mem_map] at hrow'
      obtain ⟨row, hrow, rfl⟩ := hrow'
      simp only [List.mem_map] at hb
      obtain ⟨px, hpx, rfl⟩ := hb
      obtain ⟨hne, hrange⟩ := hcimg row hrow px hpx
      rw [decide_eq_false_iff_not]
      have hsum : px.sum ≤ px.length • (255 : Int) :=
        List.sum_le_card_nsmul px 255 fun c hcm => (hrange c hcm).2
      rw [nsmul_eq_mul] at hsum
      have hlen : 0 ≤ (px.length : Int) := Int.natCast_nonneg _
      nlinarith

theorem clean_map_extreme_thresholds_witness :
    ((-3 : Int) < 0 →
      (∀ row ∈ clean_map (.gray [[0], [255]]) (-3), ∀ b ∈ row, b = true)
    ∧ (∀ row ∈ clean_map (.color [[[0, 128, 255]]]) (-3), ∀ b ∈ row, b = true))
  ∧ ((255 : Int) ≤ -3 →
      (∀ row ∈ clean_map (.gray [[0], [255]]) (-3), ∀ b ∈ row, b = false)
    ∧ (∀ row ∈ clean_map (.color [[[0, 128, 255]]]) (-3), ∀ b ∈ row, b = false)) :=
  clean_map_extreme_thresholds [[0], [255]] (by decide) [[[0, 128, 255]]]
    (by decide) (-3)

/-- C10: `terrain_to_image` is total over arbitrary cell values: a value
other than 0, 1 or 2 keeps the zero-initialized pixel, so it is painted
(0,0,0), the same as WATER. -/
theorem terrain_to_image_default_black (v : Nat)
    (h0 : v ≠ 0) (h1 : v ≠ 1) (h2 : v ≠ 2) :
    terrainColor v = (0, 0, 0)
  ∧ ∀ (terrain : List (List Nat)) (y x : Nat),
      cellOpt terrain y x = some v →
      cellOpt (terrain_to_image terrain) y x = some (0, 0, 0) := by
  have hcolor : terrainColor v = (0, 0, 0) := by
    unfold terrainColor
    simp [h0, h1, h2]
  refine ⟨hcolor, ?_⟩
  intro terrain y x hcell
  unfold terrain_to_image
  rw [cellOpt_map terrainColor terrain y x, hcell]
  simp [hcolor]

theorem terrain_to_image_default_black_witness :
    terrainColor 7 = (0, 0, 0)
  ∧ ∀ (terrain : List (List Nat)) (y x : Nat),
      cellOpt terrain y x = some 7 →
      cellOpt (terrain_to_image terrain) y x = some (0, 0, 0) :=
  terrain_to_image_default_black 7 (by decide) (by decide) (by decide)
